import Mathlib

/-!
Verification of the etinuxe onboarding / insurance core.

The data model is embedded from `src/frontend/src/api.ts`; the journey stage
resolver and hydration logic from `src/frontend/src/pages/AdminSupport.tsx`;
the insurance enrollment page logic from `src/unnamed/part_003`
(`InsuranceEnrollment`); the admin pricing form coercion from
`src/frontend/src/pages/AdminPricing.tsx`.  JS numbers are modelled as `ℚ`
(the code performs only exact arithmetic on them), JS string-literal unions
as inductive types, and `undefined | null` optional fields as `Option`.
The backend quote engine and activation state machine are not part of the
repository sources; where a claim depends on them they are modelled from the
spec (marked `Modelled from the spec:`).
-/

namespace Etinuxe
/-! ## Data model (src/frontend/src/api.ts) -/

/-- The `MiniaturizationStatus` union from api.ts. -/
inductive MiniaturizationStatus where
  | draft
  | awaiting_approval
  | approved
  | rejected
  | completed
deriving DecidableEq, Repr

/-- The `MiniaturizationStage` union from api.ts. -/
inductive MiniaturizationStage where
  | signup
  | verified
  | request_submitted
  | payment_captured
  | assessment_complete
  | awaiting_procedure
  | miniaturized
deriving DecidableEq, Repr

/-- The `UserRecord.status` union from api.ts: `"pending_verification" | "verified"`. -/
inductive UserStatus where
  | pending_verification
  | verified
deriving DecidableEq, Repr

/-- The `InsuranceTier` union from api.ts. -/
inductive InsuranceTier where
  | basic
  | plus
  | premium
  | ultra
deriving DecidableEq, Repr

/-- The `InsurancePolicyRecord.status` union from api.ts: `"active" | "cancelled" | "scheduled"`. -/
inductive PolicyStatus where
  | active
  | cancelled
  | scheduled
deriving DecidableEq, Repr

/-- The `BodyProfile` interface from api.ts. -/
structure BodyProfile where
  height_cm : ℚ
  weight_kg : Option ℚ := none
  blood_type : Option String := none
  allergies : Option (List String) := none
  notes : Option String := none
deriving DecidableEq, Repr

/-- The `HealthSurveyRecord` interface from api.ts. -/
structure HealthSurveyRecord where
  sleep_hours : ℚ
  exercise_minutes_per_week : ℚ
  diet_quality : ℚ
  stress_level : ℚ
  chronic_condition : Bool
  alcohol_units_per_week : ℚ
  smoker : Bool
  meditation_minutes_per_week : ℚ
  hydration_liters_per_day : ℚ
deriving DecidableEq, Repr

/-- The `UserRecord` interface from api.ts. -/
structure UserRecord where
  id : String
  email : String
  name : String
  location : Option String := none
  body_profile : Option BodyProfile := none
  status : UserStatus
  current_stage : MiniaturizationStage
  created_at : String := ""
  updated_at : String := ""
  respiration_rate : ℚ := 0
  energy_consumption : ℚ := 0
  medical_history : Option String := none
  health_score : ℚ := 0
  health_bucket : String := ""
deriving DecidableEq, Repr

/-- The `MiniaturizationRequestRecord` interface from api.ts. -/
structure MiniaturizationRequestRecord where
  id : String
  user_id : String
  scale : ℚ
  safety_answers : List (String × String) := []
  cost_usd : ℚ
  status : MiniaturizationStatus
  created_at : String := ""
  updated_at : String := ""
  approved_at : Option String := none
  completed_at : Option String := none
  staff_health_rating : Option ℚ := none
  staff_health_rating_at : Option String := none
deriving DecidableEq, Repr

/-- The `PaymentRecord` interface from api.ts. -/
structure PaymentRecord where
  id : String
  user_id : String
  request_id : String
  amount_usd : ℚ
  currency : String := ""
  status : String := ""
  created_at : String := ""
  paid_at : String := ""
deriving DecidableEq, Repr

/-- The `DNATokenRecord` interface from api.ts. -/
structure DNATokenRecord where
  id : String
  user_id : String
  payload_checksum : String := ""
  encrypted_blob : String := ""
  created_at : String := ""
  remaining_energy : ℚ := 0
deriving DecidableEq, Repr

/-- The `MiniaturizationTokenRecord` interface from api.ts. -/
structure MiniaturizationTokenRecord where
  id : String
  user_id : String
  request_id : String := ""
  dna_token_id : String := ""
  status : MiniaturizationStatus
  created_at : String := ""
  updated_at : String := ""
  approved_at : Option String := none
  completed_at : Option String := none
deriving DecidableEq, Repr

/-- The `PersonalityAssessmentRecord` interface from api.ts
(`emotional_profile: Record<string, number>` as an association list). -/
structure PersonalityAssessmentRecord where
  user_id : String
  emotional_profile : List (String × ℚ) := []
  narrative : Option String := none
deriving DecidableEq, Repr

/-- The `MemoryLogRecord` interface from api.ts. -/
structure MemoryLogRecord where
  id : String
  user_id : String
  timestamp : String := ""
  valence : ℚ := 0
  strength : ℚ := 0
  toxicity : ℚ := 0
  embedding : List ℚ := []
  memory_text : String := ""
  tokens_awarded : ℚ := 0
deriving DecidableEq, Repr

/-- The `MemoryTokenRecord` interface from api.ts. -/
structure MemoryTokenRecord where
  id : String
  user_id : String
  log_id : String := ""
  amount : ℚ := 0
  created_at : String := ""
  spent : Bool := false
  spent_at : Option String := none
deriving DecidableEq, Repr

/-- The `MemorySummaryRecord` interface from api.ts. -/
structure MemorySummaryRecord where
  total_points : ℚ := 0
  available_points : ℚ := 0
  spent_points : ℚ := 0
  logs_recorded : ℚ := 0
  tokens_issued : ℚ := 0
deriving DecidableEq, Repr

/-- The `DNAProfileRecord` interface from api.ts. -/
structure DNAProfileRecord where
  id : String
  user_id : String
  respiration_rate : ℚ := 0
  energy_consumption : ℚ := 0
  medical_history : Option String := none
  health_score : ℚ := 0
  health_bucket : String := ""
  created_at : String := ""
  updated_at : String := ""
  health_summary : Option String := none
  health_risks : Option (List String) := none
  health_inputs : Option HealthSurveyRecord := none
deriving DecidableEq, Repr

/-- The `HealthProfileRecord` interface from api.ts. -/
structure HealthProfileRecord where
  health_score : ℚ := 0
  health_bucket : String := ""
  bucket_label : String := ""
  medical_history : Option String := none
  respiration_rate : ℚ := 0
  energy_consumption : ℚ := 0
  profile_id : Option String := none
  updated_at : Option String := none
  health_summary : Option String := none
  health_risks : List String := []
  health_inputs : Option HealthSurveyRecord := none
deriving DecidableEq, Repr

/-- The `InsurancePolicyRecord` interface from api.ts. -/
structure InsurancePolicyRecord where
  id : String
  user_id : String
  request_id : String
  tier : InsuranceTier
  scale : ℚ := 0
  steps : ℚ := 0
  base_rate_per_step : ℚ := 0
  health_bucket : String := ""
  bucket_multiplier : ℚ := 0
  points_redeemed : ℚ := 0
  points_value_usd : ℚ := 0
  monthly_premium : ℚ := 0
  final_premium : ℚ := 0
  status : PolicyStatus
  created_at : String := ""
  next_billing_at : String := ""
  last_billed_at : Option String := none
  effective_at : String := ""
deriving DecidableEq, Repr

/-- The `InsurancePolicyQuote` interface from api.ts (lines 206-216). -/
structure InsurancePolicyQuote where
  tier : InsuranceTier
  steps : ℚ
  base_rate_per_step : ℚ
  bucket_multiplier : ℚ
  monthly_premium : ℚ
  final_premium : ℚ
  points_redeemed : ℚ
  discount_value_usd : ℚ
  points_available : ℚ
deriving DecidableEq, Repr

/-- The `UserOverview` interface from api.ts. -/
structure UserOverview where
  user : UserRecord
  requests : List MiniaturizationRequestRecord := []
  payments : List PaymentRecord := []
  dna_tokens : List DNATokenRecord := []
  dna_profile : Option DNAProfileRecord := none
  miniaturization_tokens : List MiniaturizationTokenRecord := []
  assessments : List PersonalityAssessmentRecord := []
  memory_logs : List MemoryLogRecord := []
  memory_tokens : List MemoryTokenRecord := []
  memory_summary : MemorySummaryRecord := {}
  health_profile : HealthProfileRecord := {}
  insurance_policies : List InsurancePolicyRecord := []
deriving DecidableEq, Repr

/-! ## Journey stage resolver (src/frontend/src/pages/AdminSupport.tsx, lines 394-443) -/

/-- The `JourneyStep` union from AdminSupport.tsx (lines 394-402). -/
inductive JourneyStep where
  | signup
  | verify
  | intake
  | mini
  | payment
  | assessment
  | token
  | complete
deriving DecidableEq, Repr

/-- The `resolveJourneyStep` from AdminSupport.tsx (lines 415-443).
`Boolean(user.body_profile)` is `isSome`; `xs.length > 0` on the record
lists is kept as stated in the source. -/
def resolveJourneyStep (overview : UserOverview) : JourneyStep :=
  let user := overview.user
  if user.status ≠ UserStatus.verified then
    JourneyStep.verify
  else
    let hasBodyProfile := user.body_profile.isSome
    let hasRequest := overview.requests.length > 0
    let hasPayment := overview.payments.length > 0
    let hasDnaToken := overview.dna_tokens.length > 0
    let hasMiniToken := overview.miniaturization_tokens.length > 0
    if ¬hasBodyProfile then JourneyStep.intake
    else if ¬hasRequest then JourneyStep.mini
    else if ¬hasPayment then JourneyStep.payment
    else if ¬hasDnaToken then JourneyStep.assessment
    else if ¬hasMiniToken then JourneyStep.token
    else JourneyStep.complete

/-- The stage resolver exactly as the spec words its decision order
(spec §4.3), for comparison with the code's `resolveJourneyStep`:
1. status ≠ verified → verify; 2. no body profile recorded → intake;
3. zero miniaturization requests → mini; 4. zero payments → payment;
5. zero DNA tokens → assessment; 6. zero miniaturization tokens → token;
7. otherwise → complete. -/
def resolveStageSpec (overview : UserOverview) : JourneyStep :=
  if overview.user.status ≠ UserStatus.verified then JourneyStep.verify
  else if overview.user.body_profile = none then JourneyStep.intake
  else if overview.requests = [] then JourneyStep.mini
  else if overview.payments = [] then JourneyStep.payment
  else if overview.dna_tokens = [] then JourneyStep.assessment
  else if overview.miniaturization_tokens = [] then JourneyStep.token
  else JourneyStep.complete

/-! ## Insurance enrollment page (src/unnamed/part_003, `InsuranceEnrollment`) -/

/-- The `policiesByRequest` (part_003 lines 95-104): the JS `Map` built by
iterating the overview's policies and calling `set` for each `active` one
(a later entry for the same key overwrites an earlier one), read through
`Map.get` as a function from request id to policy. -/
def policiesByRequest (policies : List InsurancePolicyRecord) :
    String → Option InsurancePolicyRecord :=
  policies.foldl
    (fun mapping policy =>
      if policy.status = PolicyStatus.active then
        fun key => if key = policy.request_id then some policy else mapping key
      else mapping)
    (fun _ => none)

/-- The `scheduledPoliciesByRequest` (part_003 lines 106-115): the analogous
JS `Map` over the `scheduled` policies. -/
def scheduledPoliciesByRequest (policies : List InsurancePolicyRecord) :
    String → Option InsurancePolicyRecord :=
  policies.foldl
    (fun mapping policy =>
      if policy.status = PolicyStatus.scheduled then
        fun key => if key = policy.request_id then some policy else mapping key
      else mapping)
    (fun _ => none)

/-- The `eligibleRequests` (part_003 lines 117-123): only requests whose status
is `approved` or `completed` are listed in the enrollment form. -/
def eligibleRequests (requests : List MiniaturizationRequestRecord) :
    List MiniaturizationRequestRecord :=
  requests.filter (fun request =>
    decide (request.status = MiniaturizationStatus.approved ∨
            request.status = MiniaturizationStatus.completed))

/-- The `activation_mode` union from api.ts: `"immediate" | "scheduled"`. -/
inductive ActivationMode where
  | immediate
  | scheduled
deriving DecidableEq, Repr

/-- The `insuranceTierLabels` from part_003 (lines 24-29). -/
def insuranceTierLabels : InsuranceTier → String
  | InsuranceTier.basic => "Basic"
  | InsuranceTier.plus => "Plus"
  | InsuranceTier.premium => "Premium"
  | InsuranceTier.ultra => "Ultra"

/-- The `status.replace(/\x7b-\x7d/, " ")` style underscore replacement used for
request-status labels: JS `replace(/_/g, " ")` replaces every underscore. -/
def replaceUnderscores (s : String) : String :=
  String.map (fun c => if c = '_' then ' ' else c) s

/-- The component state of `InsuranceEnrollment` (part_003 lines 60-76) that
feeds `sameTierActive` / `sameTierScheduled` / `infoMessage` /
`disableActivate`.  `quoteStatus` is the `useState<string | null>` holding
`response.request_status`. -/
structure EnrollmentPreviewState where
  selectedRequestId : String := ""
  quote : Option InsurancePolicyQuote := none
  quoteEligible : Bool := false
  quoteStatus : Option String := none
  activePolicyTier : Option InsuranceTier := none
  activationMode : Option ActivationMode := none
  effectiveAt : Option String := none
  scheduledPolicyTier : Option InsuranceTier := none
  activationSaving : Bool := false
  previewLoading : Bool := false
deriving DecidableEq, Repr

/-- The `sameTierActive` (part_003 line 264):
`activePolicyTier !== null && quote?.tier === activePolicyTier`
(`quote?.tier` is `undefined` when there is no quote, and
`undefined === t` is false). -/
def sameTierActive (st : EnrollmentPreviewState) : Bool :=
  match st.activePolicyTier, st.quote with
  | some t, some q => decide (q.tier = t)
  | _, _ => false

/-- The `sameTierScheduled` (part_003 line 265):
`scheduledPolicyTier !== null && quote?.tier === scheduledPolicyTier`. -/
def sameTierScheduled (st : EnrollmentPreviewState) : Bool :=
  match st.scheduledPolicyTier, st.quote with
  | some t, some q => decide (q.tier = t)
  | _, _ => false

/-- The `infoMessage` (part_003 lines 266-289).  Locale date formatting
(`formatDate`) is injected as an opaque `fmtDate : String → String`; the
branch structure and all literal text follow the source. -/
def infoMessage (fmtDate : String → String) (st : EnrollmentPreviewState) :
    Option String :=
  match st.quote with
  | none => none
  | some quote =>
    if !st.quoteEligible then
      let statusLabel :=
        match st.quoteStatus with
        | some s => replaceUnderscores s
        | none => "unavailable"
      some ("Request status is " ++ statusLabel ++
        ". Coverage activates once approval completes.")
    else if sameTierActive st then
      some "This tier is already active for the selected request."
    else if sameTierScheduled st then
      let scheduleLabel :=
        match st.effectiveAt with
        | some e => fmtDate e
        | none => "your next billing date"
      some ("This tier is already scheduled to begin on " ++ scheduleLabel ++
        ". No further action required.")
    else if st.activationMode = some ActivationMode.scheduled then
      let scheduleLabel :=
        match st.effectiveAt with
        | some e => fmtDate e
        | none => "your next billing date"
      let currentLabel :=
        match st.activePolicyTier with
        | some t => insuranceTierLabels t ++ " coverage"
        | none => "Current coverage"
      let existingScheduleNote :=
        match st.scheduledPolicyTier with
        | some t =>
          if t ≠ quote.tier then
            " This will replace your scheduled " ++ insuranceTierLabels t ++
              " coverage."
          else ""
        | none => ""
      some ("This change takes effect on your next billing date (" ++
        scheduleLabel ++ "). " ++ currentLabel ++
        " stays active until then." ++ existingScheduleNote)
    else
      some "Activation will start coverage immediately."

/-- The `disableActivate` (part_003 lines 291-292). -/
def disableActivate (st : EnrollmentPreviewState) : Bool :=
  decide (st.selectedRequestId = "") || st.quote.isNone || !st.quoteEligible ||
    st.activationSaving || st.previewLoading || sameTierActive st ||
    sameTierScheduled st

/-! ## Activation state machine

Modelled from the spec: the backend that serves `POST /users/.../insurance`
is not part of the repository sources (only its REST client in api.ts and
the enrollment page are); the definitions below follow spec §4.2
(`activate(user, request, tier, settings) -> ActivationResult`) word by
word. -/

/-- Boolean test "policy has this status and belongs to this request". -/
def isStatusFor (status : PolicyStatus) (rid : String)
    (p : InsurancePolicyRecord) : Bool :=
  decide (p.status = status ∧ p.request_id = rid)

/-- Number of policies with a given status for a given request. -/
def countStatusFor (status : PolicyStatus) (rid : String)
    (policies : List InsurancePolicyRecord) : ℕ :=
  policies.countP (isStatusFor status rid)

/-- The core invariant of spec §3: at most one `active` and at most one
`scheduled` policy per `request_id` at any time. -/
def AtMostOnePerRequest (policies : List InsurancePolicyRecord) : Prop :=
  ∀ rid : String,
    countStatusFor PolicyStatus.active rid policies ≤ 1 ∧
    countStatusFor PolicyStatus.scheduled rid policies ≤ 1

/-- Modelled from the spec: the currently active policy of a request. -/
def findActivePolicy (policies : List InsurancePolicyRecord) (rid : String) :
    Option InsurancePolicyRecord :=
  policies.find? (isStatusFor PolicyStatus.active rid)

/-- Modelled from the spec: the currently scheduled policy of a request. -/
def findScheduledPolicy (policies : List InsurancePolicyRecord) (rid : String) :
    Option InsurancePolicyRecord :=
  policies.find? (isStatusFor PolicyStatus.scheduled rid)

/-- Modelled from the spec: superseded active policies transition to
`cancelled` (spec §3 and §4.2 decision rule). -/
def cancelActiveFor (rid : String) (policies : List InsurancePolicyRecord) :
    List InsurancePolicyRecord :=
  policies.map (fun p =>
    if isStatusFor PolicyStatus.active rid p then
      { p with status := PolicyStatus.cancelled }
    else p)

/-- Modelled from the spec: a pre-existing scheduled policy for the request
is discarded (replaced) — spec §4.2. -/
def discardScheduledFor (rid : String) (policies : List InsurancePolicyRecord) :
    List InsurancePolicyRecord :=
  policies.filter (fun p => !isStatusFor PolicyStatus.scheduled rid p)

/-- Modelled from the spec: the policy ledger the activation state machine
mutates — the policy rows plus the memory-points balance
(`available_points = total awarded − already redeemed`, spec §3). -/
structure PolicyLedger where
  policies : List InsurancePolicyRecord := []
  available_points : ℚ := 0
deriving DecidableEq, Repr

/-- Modelled from the spec: the `ActivationResult` of spec §4.2 / the
`POST .../insurance` response shape of spec §6 (`activation_mode`,
`effective_at`); `no_op` marks the two idempotent cases, `points_spent`
the ledger decrement. -/
structure ActivationResult where
  policy : InsurancePolicyRecord
  activation_mode : ActivationMode
  effective_at : String
  no_op : Bool
  points_spent : ℚ
deriving DecidableEq, Repr

/-- Modelled from the spec: `RequestNotEligibleError` (spec §4.2). -/
inductive ActivationError where
  | requestNotEligible
deriving DecidableEq, Repr

/-- Modelled from the spec: the new policy row created by an activation,
carrying the Quote Engine's figures (spec §3 `InsurancePolicy`). -/
def newPolicyFrom (request : MiniaturizationRequestRecord)
    (tier : InsuranceTier) (quote : InsurancePolicyQuote)
    (id now effectiveAt nextBillingAt : String) (status : PolicyStatus) :
    InsurancePolicyRecord :=
  { id := id
    user_id := request.user_id
    request_id := request.id
    tier := tier
    scale := request.scale
    steps := quote.steps
    base_rate_per_step := quote.base_rate_per_step
    bucket_multiplier := quote.bucket_multiplier
    points_redeemed := quote.points_redeemed
    points_value_usd := quote.discount_value_usd
    monthly_premium := quote.monthly_premium
    final_premium := quote.final_premium
    status := status
    created_at := now
    next_billing_at := nextBillingAt
    effective_at := effectiveAt }

/-- Modelled from the spec, §4.2 immediate branch: the new policy becomes
`active` with `effective_at = now`, any pre-existing active policy for the
request is marked `cancelled`, any pre-existing scheduled policy for the
request is discarded, and the quote's `points_redeemed` is decremented from
the ledger atomically with the policy creation. -/
def activateImmediate (ledger : PolicyLedger)
    (request : MiniaturizationRequestRecord) (tier : InsuranceTier)
    (quote : InsurancePolicyQuote) (newPolicyId now nextBillingAt : String) :
    ActivationResult × PolicyLedger :=
  let newPolicy :=
    newPolicyFrom request tier quote newPolicyId now now nextBillingAt
      PolicyStatus.active
  ({ policy := newPolicy
     activation_mode := ActivationMode.immediate
     effective_at := now
     no_op := false
     points_spent := quote.points_redeemed },
   { policies :=
       discardScheduledFor request.id (cancelActiveFor request.id ledger.policies)
         ++ [newPolicy]
     available_points := ledger.available_points - quote.points_redeemed })

/-- Modelled from the spec, §4.2 scheduled branch: a new policy row with
`status = scheduled` and `effective_at = current_active_policy.next_billing_at`
replaces any previous scheduled policy for the request; the active policy is
left untouched; points are redeemed. -/
def activateScheduled (ledger : PolicyLedger)
    (request : MiniaturizationRequestRecord) (tier : InsuranceTier)
    (quote : InsurancePolicyQuote) (activePolicy : InsurancePolicyRecord)
    (newPolicyId now : String) :
    ActivationResult × PolicyLedger :=
  let newPolicy :=
    newPolicyFrom request tier quote newPolicyId now
      activePolicy.next_billing_at activePolicy.next_billing_at
      PolicyStatus.scheduled
  ({ policy := newPolicy
     activation_mode := ActivationMode.scheduled
     effective_at := activePolicy.next_billing_at
     no_op := false
     points_spent := quote.points_redeemed },
   { policies := discardScheduledFor request.id ledger.policies ++ [newPolicy]
     available_points := ledger.available_points - quote.points_redeemed })

/-- Modelled from the spec: `activate(user, request, tier, settings)`
(spec §4.2).  Precondition: request status ∈ \x7bapproved, completed\x7d,
otherwise `RequestNotEligibleError`.  Requesting the currently active tier
or the currently scheduled tier is an idempotent no-op; otherwise an
existing active policy (without a forced immediate start) leads to a
scheduled activation at its `next_billing_at`, and any other case to an
immediate activation. -/
def activate (ledger : PolicyLedger) (request : MiniaturizationRequestRecord)
    (tier : InsuranceTier) (quote : InsurancePolicyQuote)
    (newPolicyId now nextBillingAt : String) (forceImmediate : Bool := false) :
    Except ActivationError (ActivationResult × PolicyLedger) :=
  if request.status = MiniaturizationStatus.approved ∨
     request.status = MiniaturizationStatus.completed then
    match findActivePolicy ledger.policies request.id,
          findScheduledPolicy ledger.policies request.id with
    | some activePolicy, some scheduledPolicy =>
      if activePolicy.tier = tier then
        Except.ok
          ({ policy := activePolicy
             activation_mode := ActivationMode.immediate
             effective_at := activePolicy.effective_at
             no_op := true
             points_spent := 0 }, ledger)
      else if scheduledPolicy.tier = tier then
        Except.ok
          ({ policy := scheduledPolicy
             activation_mode := ActivationMode.scheduled
             effective_at := scheduledPolicy.effective_at
             no_op := true
             points_spent := 0 }, ledger)
      else if forceImmediate then
        Except.ok
          (activateImmediate ledger request tier quote newPolicyId now
            nextBillingAt)
      else
        Except.ok
          (activateScheduled ledger request tier quote activePolicy
            newPolicyId now)
    | some activePolicy, none =>
      if activePolicy.tier = tier then
        Except.ok
          ({ policy := activePolicy
             activation_mode := ActivationMode.immediate
             effective_at := activePolicy.effective_at
             no_op := true
             points_spent := 0 }, ledger)
      else if forceImmediate then
        Except.ok
          (activateImmediate ledger request tier quote newPolicyId now
            nextBillingAt)
      else
        Except.ok
          (activateScheduled ledger request tier quote activePolicy
            newPolicyId now)
    | none, some scheduledPolicy =>
      if scheduledPolicy.tier = tier then
        Except.ok
          ({ policy := scheduledPolicy
             activation_mode := ActivationMode.scheduled
             effective_at := scheduledPolicy.effective_at
             no_op := true
             points_spent := 0 }, ledger)
      else
        Except.ok
          (activateImmediate ledger request tier quote newPolicyId now
            nextBillingAt)
    | none, none =>
      Except.ok
        (activateImmediate ledger request tier quote newPolicyId now
          nextBillingAt)
  else
    Except.error ActivationError.requestNotEligible

/-! ## Quote engine points discount

Modelled from the spec: the Quote Engine runs in the backend, which is not
under src/ — api.ts only declares the `InsurancePolicyQuote` response shape
(lines 206-216).  The definitions follow spec §4.1 steps 5-6. -/

/-- Modelled from the spec: the points-discount slice of an
`InsurancePolicyQuote` (spec §4.1 steps 5-6). -/
structure PointsDiscountResult where
  units_redeemable : ℕ
  discount_value_usd : ℚ
  points_redeemed : ℕ
  final_premium : ℚ
deriving DecidableEq, Repr

/-- Modelled from the spec (§4.1): `units_redeemable =
floor(availablePoints / points_per_discount_unit)`; the discount is capped
at the premium, `discount_value_usd = min(monthly_premium,
units_redeemable * discount_per_unit)`; when the cap bites,
`points_redeemed` is recomputed by inverting from the capped discount — the
largest number of whole units whose combined discount still fits under the
premium (Scenario B: 4 units, since 4×5 = 20 ≤ 20 but 5×5 = 25 > 20) —
so it is a whole multiple of `points_per_discount_unit`, not the full
available balance; `final_premium = monthly_premium − discount_value_usd`,
floored at 0 (spec §4.1 step 6). -/
def quotePointsDiscount (monthly_premium : ℚ) (availablePoints : ℕ)
    (points_per_discount_unit : ℕ) (discount_per_unit : ℚ) :
    PointsDiscountResult :=
  let units := availablePoints / points_per_discount_unit
  let rawDiscount := (units : ℚ) * discount_per_unit
  let discount := min monthly_premium rawDiscount
  let unitsApplied :=
    if rawDiscount ≤ monthly_premium then units
    else (⌊monthly_premium / discount_per_unit⌋).toNat
  { units_redeemable := units
    discount_value_usd := discount
    points_redeemed := unitsApplied * points_per_discount_unit
    final_premium := max (monthly_premium - discount) 0 }

/-! ## Journey workflow hydration (src/frontend/src/pages/AdminSupport.tsx) -/

/-- The `TokenIssueResponse` interface from api.ts (lines 637-640). -/
structure TokenIssueResponse where
  token_id : String
  status : MiniaturizationStatus
deriving DecidableEq, Repr

/-- The `mode` prop union of `UserJourney` (AdminSupport.tsx line 405). -/
inductive JourneyMode where
  | new
  | resume
deriving DecidableEq, Repr

/-- The `context` argument union of `hydrateFromOverview` (line 678). -/
inductive HydrateContext where
  | initial
  | sync
deriving DecidableEq, Repr

/-- The `FINALIZED_STAGES` (AdminSupport.tsx line 413). -/
def FINALIZED_STAGES : List MiniaturizationStage :=
  [MiniaturizationStage.awaiting_procedure, MiniaturizationStage.miniaturized]

/-- The string value of a `MiniaturizationStage` union literal. -/
def stageString : MiniaturizationStage → String
  | MiniaturizationStage.signup => "signup"
  | MiniaturizationStage.verified => "verified"
  | MiniaturizationStage.request_submitted => "request_submitted"
  | MiniaturizationStage.payment_captured => "payment_captured"
  | MiniaturizationStage.assessment_complete => "assessment_complete"
  | MiniaturizationStage.awaiting_procedure => "awaiting_procedure"
  | MiniaturizationStage.miniaturized => "miniaturized"

/-- The `log` (AdminSupport.tsx lines 603-605): prepend the message, keep at
most the first 8 previous entries. -/
def logMessage (message : String) (logs : List String) : List String :=
  message :: logs.take 8

/-- The slice of `UserJourney`'s component state (AdminSupport.tsx lines
579-601) that `hydrateFromOverview` writes: the current step, the cached
overview, user id, OTP entry state, the derived request / payment / token
anchors, the hydration refs and the status log.  The free-text form
prefills of lines 702-800 (signup/health/mini/assessment forms and
`paymentAmount`), which only restate overview fields through JS
number-to-string formatting, are not tracked in the embedding. -/
structure JourneyComponentState where
  step : JourneyStep
  overview : Option UserOverview := none
  userId : Option String := none
  otpInput : String := ""
  otpCooldown : ℕ := 0
  requestId : Option String := none
  estimatedCost : Option ℚ := none
  dnaTokenId : Option String := none
  issuedToken : Option TokenIssueResponse := none
  previousStage : Option MiniaturizationStage := none
  initialHydrated : Bool := false
  completionNotified : Bool := false
  statusLog : List String := []
deriving DecidableEq, Repr

/-- The `hydrateFromOverview` (AdminSupport.tsx lines 677-825), as a state
transition on the tracked component state.  `onCompletePresent` stands for
`onComplete` being passed (the ref only flips when the callback exists);
the external `onStageUpdate` / `onComplete` callback invocations have no
state of their own. -/
def hydrateFromOverview (mode : JourneyMode) (onCompletePresent : Bool)
    (s : JourneyComponentState) (data : UserOverview)
    (context : HydrateContext) : JourneyComponentState :=
  let nextStep := resolveJourneyStep data
  let stageChanged :=
    s.previousStage ≠ none ∧ s.previousStage ≠ some data.user.current_stage
  let continuing :=
    context = HydrateContext.initial ∧ mode = JourneyMode.resume ∧
      s.initialHydrated = false
  let statusLog :=
    if continuing then
      logMessage ("Continuing at stage " ++
        (stageString data.user.current_stage).toUpper ++ ".") s.statusLog
    else if stageChanged then
      logMessage ("Stage advanced to " ++
        (stageString data.user.current_stage).toUpper ++ ".") s.statusLog
    else s.statusLog
  let initialHydrated := if continuing then true else s.initialHydrated
  let latestRequest := data.requests.getLast?
  let latestDnaToken := data.dna_tokens.getLast?
  let latestMiniToken := data.miniaturization_tokens.getLast?
  let completionNotified :=
    if nextStep = JourneyStep.complete ∧
        data.user.current_stage ∈ FINALIZED_STAGES ∧
        onCompletePresent = true ∧ s.completionNotified = false then
      true
    else s.completionNotified
  { step := nextStep
    overview := some data
    userId := some data.user.id
    otpInput := if nextStep ≠ JourneyStep.verify then "" else s.otpInput
    otpCooldown := if nextStep ≠ JourneyStep.verify then 0 else s.otpCooldown
    requestId := latestRequest.map (fun r => r.id)
    estimatedCost := latestRequest.map (fun r => r.cost_usd)
    dnaTokenId := latestDnaToken.map (fun t => t.id)
    issuedToken := latestMiniToken.map
      (fun t => { token_id := t.id, status := t.status })
    previousStage := some data.user.current_stage
    initialHydrated := initialHydrated
    completionNotified := completionNotified
    statusLog := statusLog }

/-! ## Admin pricing form coercion
(src/frontend/src/pages/AdminPricing.tsx lines 156-171 and
src/unnamed/part_005 lines 165-178) -/

/-- JS `Math.round` on a rational: round half toward positive infinity. -/
def jsRound (q : ℚ) : ℤ := ⌊q + 1/2⌋

/-- The coercion both pricing forms apply to every edit of the
"Points per redemption" field (AdminPricing.tsx line 161, part_005 line
170): `Math.max(1, Math.round(value))`. -/
def changePointsPerUnit (value : ℚ) : ℤ := max 1 (jsRound value)

/-- The `min` attribute of the same field (AdminPricing.tsx line 160,
part_005 line 169): 100. -/
def pointsPerUnitFieldMin : ℕ := 100

/-! ## Theorems -/

/-! ### Claims about the resolver -/

/-- Helper: the code's resolver agrees with the spec's decision order on
every overview. -/
theorem resolveJourneyStep_eq_spec (o : UserOverview) :
    resolveJourneyStep o = resolveStageSpec o := by
  simp only [resolveJourneyStep, resolveStageSpec]
  cases hs : o.user.status <;> cases hb : o.user.body_profile <;>
    cases hr : o.requests <;> cases hp : o.payments <;>
    cases hd : o.dna_tokens <;> cases hm : o.miniaturization_tokens <;>
    simp [hs, hb, hr, hp, hd, hm]

/-- C1: `resolveJourneyStep` returns the first matching stage in the spec's
fixed order (it coincides with the order-of-checks spec function on every
overview), and in particular an overview with `status = verified` and
`body_profile = null` resolves to `intake`. -/
theorem resolveJourneyStep_follows_spec_order :
    (∀ overview : UserOverview, resolveJourneyStep overview = resolveStageSpec overview) ∧
    (∀ overview : UserOverview,
      overview.user.status = UserStatus.verified →
      overview.user.body_profile = none →
      resolveJourneyStep overview = JourneyStep.intake) := by
  refine ⟨resolveJourneyStep_eq_spec, ?_⟩
  intro o hstatus hbody
  rw [resolveJourneyStep_eq_spec]
  simp [resolveStageSpec, hstatus, hbody]

/-- Witness for C1: a concrete verified overview with no body profile
resolves to `intake`. -/
theorem resolveJourneyStep_follows_spec_order_witness :
    resolveJourneyStep
      { user := { id := "u1", email := "a@b.c", name := "A",
                  status := UserStatus.verified,
                  current_stage := MiniaturizationStage.verified,
                  body_profile := none } } = JourneyStep.intake :=
  resolveJourneyStep_follows_spec_order.2
    { user := { id := "u1", email := "a@b.c", name := "A",
                status := UserStatus.verified,
                current_stage := MiniaturizationStage.verified,
                body_profile := none } } rfl rfl

/-- C8: `resolveJourneyStep` is total into the stage enumeration (its result
is always one of verify/intake/mini/payment/assessment/token/complete),
deterministic (equal snapshots give equal stages), and a user whose status
is not `verified` resolves to `verify`. -/
theorem resolveJourneyStep_total_deterministic :
    (∀ overview : UserOverview,
      resolveJourneyStep overview ∈
        [JourneyStep.verify, JourneyStep.intake, JourneyStep.mini,
         JourneyStep.payment, JourneyStep.assessment, JourneyStep.token,
         JourneyStep.complete]) ∧
    (∀ o₁ o₂ : UserOverview, o₁ = o₂ →
      resolveJourneyStep o₁ = resolveJourneyStep o₂) ∧
    (∀ overview : UserOverview,
      overview.user.status ≠ UserStatus.verified →
      resolveJourneyStep overview = JourneyStep.verify) := by
  refine ⟨?_, ?_, ?_⟩
  · intro o
    simp only [resolveJourneyStep]
    split <;> [skip; split <;> [skip; split <;> [skip; split <;>
      [skip; split <;> [skip; split]]]]] <;> simp
  · intro o₁ o₂ h
    rw [h]
  · intro o h
    simp only [resolveJourneyStep, if_pos h]

/-- Witness for C8: a concrete brand-new unverified overview resolves to
`verify`, and its resolved stage lies in the enumeration. -/
theorem resolveJourneyStep_total_deterministic_witness :
    resolveJourneyStep
      { user := { id := "u2", email := "n@e.w", name := "N",
                  status := UserStatus.pending_verification,
                  current_stage := MiniaturizationStage.signup } }
      = JourneyStep.verify :=
  resolveJourneyStep_total_deterministic.2.2
    { user := { id := "u2", email := "n@e.w", name := "N",
                status := UserStatus.pending_verification,
                current_stage := MiniaturizationStage.signup } }
    (by decide)

/-- C9: an overview with at least one miniaturization request — whatever its
status, including `rejected` — never resolves to `mini`. -/
theorem resolveJourneyStep_ne_mini_of_request :
    ∀ overview : UserOverview, overview.requests ≠ [] →
      resolveJourneyStep overview ≠ JourneyStep.mini := by
  intro o h
  rw [resolveJourneyStep_eq_spec o]
  simp only [resolveStageSpec]
  split
  · simp
  split
  · simp
  split
  · simp_all
  split
  · simp
  split
  · simp
  simp

/-- Witness for C9: an overview whose only request is `rejected` does not
resolve to `mini`. -/
theorem resolveJourneyStep_ne_mini_of_request_witness :
    resolveJourneyStep
      { user := { id := "u3", email := "r@e.j", name := "R",
                  status := UserStatus.verified,
                  current_stage := MiniaturizationStage.request_submitted },
        requests := [{ id := "r1", user_id := "u3", scale := 1/10,
                       cost_usd := 100,
                       status := MiniaturizationStatus.rejected }] }
      ≠ JourneyStep.mini :=
  resolveJourneyStep_ne_mini_of_request
    { user := { id := "u3", email := "r@e.j", name := "R",
                status := UserStatus.verified,
                current_stage := MiniaturizationStage.request_submitted },
      requests := [{ id := "r1", user_id := "u3", scale := 1/10,
                     cost_usd := 100,
                     status := MiniaturizationStatus.rejected }] }
    (by decide)

/-! ### Lookup lemmas for the per-request maps -/

/-- Helper for both per-request maps: anything a map built by the `Map.set`
fold returns either comes from the list (with the selected status and the
queried request id) or from the initial mapping. -/
theorem byRequest_foldl_lookup (status : PolicyStatus) :
    ∀ (l : List InsurancePolicyRecord)
      (m : String → Option InsurancePolicyRecord)
      (rid : String) (p : InsurancePolicyRecord),
      (l.foldl
        (fun mapping policy =>
          if policy.status = status then
            fun key => if key = policy.request_id then some policy else mapping key
          else mapping) m) rid = some p →
      (p ∈ l ∧ p.request_id = rid ∧ p.status = status) ∨ m rid = some p := by
  intro l
  induction l with
  | nil =>
    intro m rid p h
    exact Or.inr h
  | cons a t ih =>
    intro m rid p h
    simp only [List.foldl_cons] at h
    rcases ih _ rid p h with ⟨hmem, hrid, hst⟩ | hbase
    · exact Or.inl ⟨List.mem_cons_of_mem a hmem, hrid, hst⟩
    · by_cases ha : a.status = status
      · simp only [ha, if_true] at hbase
        by_cases hk : rid = a.request_id
        · simp only [hk, if_true] at hbase
          refine Or.inl ⟨?_, ?_, ?_⟩
          · rw [← Option.some_inj.mp hbase]
            exact List.mem_cons_self a t
          · rw [← Option.some_inj.mp hbase, ← hk]
          · rw [← Option.some_inj.mp hbase]
            exact ha
        · simp only [hk, if_false] at hbase
          exact Or.inr hbase
      · simp only [ha, if_false] at hbase
        exact Or.inr hbase

/-! ### Counting lemmas for the ledger invariant -/

/-- After cancelling, a request has no active policy left. -/
theorem countStatusFor_active_cancelActiveFor_self
    (rid : String) (l : List InsurancePolicyRecord) :
    countStatusFor PolicyStatus.active rid (cancelActiveFor rid l) = 0 := by
  simp only [countStatusFor, cancelActiveFor, List.countP_map]
  rw [List.countP_eq_zero]
  intro b _
  by_cases hc : b.status = PolicyStatus.active ∧ b.request_id = rid <;>
    simp [isStatusFor, hc]

/-- Cancelling the active policy of one request leaves the active count of
every other request unchanged. -/
theorem countStatusFor_active_cancelActiveFor_other
    (rid rid' : String) (l : List InsurancePolicyRecord) (h : rid' ≠ rid) :
    countStatusFor PolicyStatus.active rid' (cancelActiveFor rid l) =
      countStatusFor PolicyStatus.active rid' l := by
  simp only [countStatusFor, cancelActiveFor, List.countP_map]
  apply List.countP_congr
  intro b _
  by_cases hc : b.status = PolicyStatus.active ∧ b.request_id = rid <;>
    simp [isStatusFor, hc, Ne.symm h]

/-- Cancelling active policies never touches scheduled counts. -/
theorem countStatusFor_scheduled_cancelActiveFor
    (rid rid' : String) (l : List InsurancePolicyRecord) :
    countStatusFor PolicyStatus.scheduled rid' (cancelActiveFor rid l) =
      countStatusFor PolicyStatus.scheduled rid' l := by
  simp only [countStatusFor, cancelActiveFor, List.countP_map]
  apply List.countP_congr
  intro b _
  by_cases hc : b.status = PolicyStatus.active ∧ b.request_id = rid <;>
    simp [isStatusFor, hc]

/-- After discarding, a request has no scheduled policy left. -/
theorem countStatusFor_scheduled_discardScheduledFor_self
    (rid : String) (l : List InsurancePolicyRecord) :
    countStatusFor PolicyStatus.scheduled rid (discardScheduledFor rid l) = 0 := by
  simp only [countStatusFor, discardScheduledFor]
  rw [List.countP_eq_zero]
  intro a ha
  have := (List.mem_filter.mp ha).2
  simp only [Bool.not_eq_true', ← Bool.not_eq_true] at this
  exact this

/-- Discarding is a filter, so no count grows. -/
theorem countStatusFor_discardScheduledFor_le
    (status : PolicyStatus) (rid rid' : String)
    (l : List InsurancePolicyRecord) :
    countStatusFor status rid' (discardScheduledFor rid l) ≤
      countStatusFor status rid' l := by
  simp only [countStatusFor, discardScheduledFor, List.countP_filter]
  exact List.countP_mono_left (fun a _ h => (Bool.and_elim_left h))

/-- Policies kept by discarding are exactly the original ones that are not
the request's scheduled policy. -/
theorem mem_discardScheduledFor
    {rid : String} {l : List InsurancePolicyRecord}
    {p : InsurancePolicyRecord} (hp : p ∈ l)
    (h : ¬(p.status = PolicyStatus.scheduled ∧ p.request_id = rid)) :
    p ∈ discardScheduledFor rid l := by
  refine List.mem_filter.mpr ⟨hp, ?_⟩
  simp [isStatusFor, h]

/-- The append step of an activation: counts add up. -/
theorem countStatusFor_append_singleton
    (status : PolicyStatus) (rid : String)
    (l : List InsurancePolicyRecord) (p : InsurancePolicyRecord) :
    countStatusFor status rid (l ++ [p]) =
      countStatusFor status rid l + (if isStatusFor status rid p then 1 else 0) := by
  simp [countStatusFor, List.countP_append, List.countP_cons]

/-- An immediate activation preserves the at-most-one invariant: it first
cancels the request's active policy and discards its scheduled policy, then
appends the one new active policy. -/
theorem AtMostOnePerRequest_immediate
    (l : List InsurancePolicyRecord) (rid : String)
    (h : AtMostOnePerRequest l) (np : InsurancePolicyRecord)
    (hrid : np.request_id = rid) (hst : np.status = PolicyStatus.active) :
    AtMostOnePerRequest
      (discardScheduledFor rid (cancelActiveFor rid l) ++ [np]) := by
  intro rid'
  rw [countStatusFor_append_singleton, countStatusFor_append_singleton]
  by_cases hr : rid' = rid
  · subst hr
    constructor
    · have h0 :
          countStatusFor PolicyStatus.active rid'
            (discardScheduledFor rid' (cancelActiveFor rid' l)) = 0 :=
        Nat.le_zero.mp
          ((countStatusFor_discardScheduledFor_le _ _ _ _).trans
            (Nat.le_of_eq (countStatusFor_active_cancelActiveFor_self rid' l)))
      rw [h0]
      split <;> simp
    · rw [countStatusFor_scheduled_discardScheduledFor_self]
      have : isStatusFor PolicyStatus.scheduled rid' np = false := by
        simp [isStatusFor, hst]
      rw [this]
      simp
  · have hnp : ∀ status, isStatusFor status rid' np = false := by
      intro status
      simp only [isStatusFor, decide_eq_false_iff_not]
      intro hcontra
      exact hr ((hrid.symm.trans hcontra.2).symm)
    constructor
    · rw [hnp PolicyStatus.active]
      simp only [Bool.false_eq_true, if_false, Nat.add_zero]
      calc countStatusFor PolicyStatus.active rid'
            (discardScheduledFor rid (cancelActiveFor rid l))
          ≤ countStatusFor PolicyStatus.active rid' (cancelActiveFor rid l) :=
            countStatusFor_discardScheduledFor_le _ _ _ _
        _ = countStatusFor PolicyStatus.active rid' l :=
            countStatusFor_active_cancelActiveFor_other rid rid' l hr
        _ ≤ 1 := (h rid').1
    · rw [hnp PolicyStatus.scheduled]
      simp only [Bool.false_eq_true, if_false, Nat.add_zero]
      calc countStatusFor PolicyStatus.scheduled rid'
            (discardScheduledFor rid (cancelActiveFor rid l))
          ≤ countStatusFor PolicyStatus.scheduled rid' (cancelActiveFor rid l) :=
            countStatusFor_discardScheduledFor_le _ _ _ _
        _ = countStatusFor PolicyStatus.scheduled rid' l :=
            countStatusFor_scheduled_cancelActiveFor rid rid' l
        _ ≤ 1 := (h rid').2

/-- A scheduled activation preserves the at-most-one invariant: it replaces
the request's scheduled policy and leaves active policies untouched. -/
theorem AtMostOnePerRequest_scheduled
    (l : List InsurancePolicyRecord) (rid : String)
    (h : AtMostOnePerRequest l) (np : InsurancePolicyRecord)
    (hrid : np.request_id = rid) (hst : np.status = PolicyStatus.scheduled) :
    AtMostOnePerRequest (discardScheduledFor rid l ++ [np]) := by
  intro rid'
  rw [countStatusFor_append_singleton, countStatusFor_append_singleton]
  constructor
  · have : isStatusFor PolicyStatus.active rid' np = false := by
      simp [isStatusFor, hst]
    rw [this]
    simp only [Bool.false_eq_true, if_false, Nat.add_zero]
    exact (countStatusFor_discardScheduledFor_le _ _ _ _).trans (h rid').1
  · by_cases hr : rid' = rid
    · subst hr
      rw [countStatusFor_scheduled_discardScheduledFor_self]
      split <;> simp
    · have : isStatusFor PolicyStatus.scheduled rid' np = false := by
        simp only [isStatusFor, decide_eq_false_iff_not]
        intro hcontra
        exact hr ((hrid.symm.trans hcontra.2).symm)
      rw [this]
      simp only [Bool.false_eq_true, if_false, Nat.add_zero]
      exact (countStatusFor_discardScheduledFor_le _ _ _ _).trans (h rid').2

/-- Case analysis of a successful `activate`: either a no-op that leaves the
ledger unchanged, an immediate activation, or a scheduled activation keyed to
the active policy's next billing date. -/
theorem activate_ok_cases
    {ledger : PolicyLedger} {request : MiniaturizationRequestRecord}
    {tier : InsuranceTier} {quote : InsurancePolicyQuote}
    {newPolicyId now nextBillingAt : String} {forceImmediate : Bool}
    {result : ActivationResult} {ledger' : PolicyLedger}
    (hok : activate ledger request tier quote newPolicyId now nextBillingAt
      forceImmediate = Except.ok (result, ledger')) :
    (result.no_op = true ∧ result.points_spent = 0 ∧ ledger' = ledger) ∨
    (result.no_op = false ∧
      result.activation_mode = ActivationMode.immediate ∧
      result.policy.status = PolicyStatus.active ∧
      result.policy.request_id = request.id ∧
      ledger'.policies =
        discardScheduledFor request.id
          (cancelActiveFor request.id ledger.policies) ++ [result.policy]) ∨
    (∃ a, findActivePolicy ledger.policies request.id = some a ∧
      result.no_op = false ∧
      result.activation_mode = ActivationMode.scheduled ∧
      result.policy.status = PolicyStatus.scheduled ∧
      result.policy.request_id = request.id ∧
      result.effective_at = a.next_billing_at ∧
      ledger'.policies =
        discardScheduledFor request.id ledger.policies ++ [result.policy]) := by
  unfold activate at hok
  by_cases helig : request.status = MiniaturizationStatus.approved ∨
      request.status = MiniaturizationStatus.completed
  · rw [if_pos helig] at hok
    cases hA : findActivePolicy ledger.policies request.id with
    | some a =>
      cases hS : findScheduledPolicy ledger.policies request.id with
      | some s =>
        rw [hA, hS] at hok
        dsimp only at hok
        by_cases h1 : a.tier = tier
        · rw [if_pos h1] at hok
          simp only [Except.ok.injEq, Prod.mk.injEq] at hok
          obtain ⟨hres, hled⟩ := hok
          subst hres; subst hled
          exact Or.inl ⟨rfl, rfl, rfl⟩
        · rw [if_neg h1] at hok
          by_cases h2 : s.tier = tier
          · rw [if_pos h2] at hok
            simp only [Except.ok.injEq, Prod.mk.injEq] at hok
            obtain ⟨hres, hled⟩ := hok
            subst hres; subst hled
            exact Or.inl ⟨rfl, rfl, rfl⟩
          · rw [if_neg h2] at hok
            by_cases h3 : forceImmediate
            · rw [if_pos h3] at hok
              simp only [activateImmediate, Except.ok.injEq, Prod.mk.injEq] at hok
              obtain ⟨hres, hled⟩ := hok
              subst hres; subst hled
              exact Or.inr (Or.inl ⟨rfl, rfl, rfl, rfl, rfl⟩)
            · rw [if_neg h3] at hok
              simp only [activateScheduled, Except.ok.injEq, Prod.mk.injEq] at hok
              obtain ⟨hres, hled⟩ := hok
              subst hres; subst hled
              exact Or.inr (Or.inr ⟨a, rfl, rfl, rfl, rfl, rfl, rfl, rfl⟩)
      | none =>
        rw [hA, hS] at hok
        dsimp only at hok
        by_cases h1 : a.tier = tier
        · rw [if_pos h1] at hok
          simp only [Except.ok.injEq, Prod.mk.injEq] at hok
          obtain ⟨hres, hled⟩ := hok
          subst hres; subst hled
          exact Or.inl ⟨rfl, rfl, rfl⟩
        · rw [if_neg h1] at hok
          by_cases h3 : forceImmediate
          · rw [if_pos h3] at hok
            simp only [activateImmediate, Except.ok.injEq, Prod.mk.injEq] at hok
            obtain ⟨hres, hled⟩ := hok
            subst hres; subst hled
            exact Or.inr (Or.inl ⟨rfl, rfl, rfl, rfl, rfl⟩)
          · rw [if_neg h3] at hok
            simp only [activateScheduled, Except.ok.injEq, Prod.mk.injEq] at hok
            obtain ⟨hres, hled⟩ := hok
            subst hres; subst hled
            exact Or.inr (Or.inr ⟨a, rfl, rfl, rfl, rfl, rfl, rfl, rfl⟩)
    | none =>
      cases hS : findScheduledPolicy ledger.policies request.id with
      | some s =>
        rw [hA, hS] at hok
        dsimp only at hok
        by_cases h2 : s.tier = tier
        · rw [if_pos h2] at hok
          simp only [Except.ok.injEq, Prod.mk.injEq] at hok
          obtain ⟨hres, hled⟩ := hok
          subst hres; subst hled
          exact Or.inl ⟨rfl, rfl, rfl⟩
        · rw [if_neg h2] at hok
          simp only [activateImmediate, Except.ok.injEq, Prod.mk.injEq] at hok
          obtain ⟨hres, hled⟩ := hok
          subst hres; subst hled
          exact Or.inr (Or.inl ⟨rfl, rfl, rfl, rfl, rfl⟩)
      | none =>
        rw [hA, hS] at hok
        dsimp only at hok
        simp only [activateImmediate, Except.ok.injEq, Prod.mk.injEq] at hok
        obtain ⟨hres, hled⟩ := hok
        subst hres; subst hled
        exact Or.inr (Or.inl ⟨rfl, rfl, rfl, rfl, rfl⟩)
  · rw [if_neg helig] at hok
    exact absurd hok (by simp)

/-- C2: at most one `active` and at most one `scheduled` policy per request:
the enrollment page's per-request maps bind a request id to a single policy
(of the right status, drawn from the overview), a successful activation
preserves the at-most-one-active / at-most-one-scheduled ledger invariant,
and a non-no-op scheduled activation leaves the new policy as the only
scheduled policy of its request (the previous schedule is replaced). -/
theorem policy_per_request_uniqueness :
    (∀ (policies : List InsurancePolicyRecord) (rid : String)
        (p : InsurancePolicyRecord),
        policiesByRequest policies rid = some p →
          p ∈ policies ∧ p.request_id = rid ∧ p.status = PolicyStatus.active) ∧
    (∀ (policies : List InsurancePolicyRecord) (rid : String)
        (p : InsurancePolicyRecord),
        scheduledPoliciesByRequest policies rid = some p →
          p ∈ policies ∧ p.request_id = rid ∧
            p.status = PolicyStatus.scheduled) ∧
    (∀ (ledger : PolicyLedger) (request : MiniaturizationRequestRecord)
        (tier : InsuranceTier) (quote : InsurancePolicyQuote)
        (newPolicyId now nextBillingAt : String) (forceImmediate : Bool)
        (result : ActivationResult) (ledger' : PolicyLedger),
        AtMostOnePerRequest ledger.policies →
        activate ledger request tier quote newPolicyId now nextBillingAt
          forceImmediate = Except.ok (result, ledger') →
        AtMostOnePerRequest ledger'.policies) ∧
    (∀ (ledger : PolicyLedger) (request : MiniaturizationRequestRecord)
        (tier : InsuranceTier) (quote : InsurancePolicyQuote)
        (newPolicyId now nextBillingAt : String) (forceImmediate : Bool)
        (result : ActivationResult) (ledger' : PolicyLedger),
        activate ledger request tier quote newPolicyId now nextBillingAt
          forceImmediate = Except.ok (result, ledger') →
        result.no_op = false →
        result.activation_mode = ActivationMode.scheduled →
        ∀ s ∈ ledger'.policies, s.status = PolicyStatus.scheduled →
          s.request_id = request.id → s = result.policy) := by
  refine ⟨?_, ?_, ?_, ?_⟩
  · intro policies rid p hp
    rcases byRequest_foldl_lookup PolicyStatus.active policies
        (fun _ => none) rid p hp with ⟨hm, hr, hs⟩ | hbase
    · exact ⟨hm, hr, hs⟩
    · cases hbase
  · intro policies rid p hp
    rcases byRequest_foldl_lookup PolicyStatus.scheduled policies
        (fun _ => none) rid p hp with ⟨hm, hr, hs⟩ | hbase
    · exact ⟨hm, hr, hs⟩
    · cases hbase
  · intro ledger request tier quote newPolicyId now nextBillingAt forceImmediate
      result ledger' hinv hok
    rcases activate_ok_cases hok with ⟨_, _, rfl⟩ |
      ⟨_, _, hst, hrid, hpol⟩ | ⟨a, _, _, _, hst, hrid, _, hpol⟩
    · exact hinv
    · rw [show ledger'.policies =
          discardScheduledFor request.id
            (cancelActiveFor request.id ledger.policies) ++ [result.policy]
          from hpol]
      exact AtMostOnePerRequest_immediate ledger.policies request.id hinv
        result.policy hrid hst
    · rw [show ledger'.policies =
          discardScheduledFor request.id ledger.policies ++ [result.policy]
          from hpol]
      exact AtMostOnePerRequest_scheduled ledger.policies request.id hinv
        result.policy hrid hst
  · intro ledger request tier quote newPolicyId now nextBillingAt forceImmediate
      result ledger' hok hno hmode s hs hsst hsrid
    rcases activate_ok_cases hok with ⟨hno', _, _⟩ |
      ⟨_, hmode', _, _, _⟩ | ⟨a, _, _, _, _, _, _, hpol⟩
    · rw [hno'] at hno
      cases hno
    · rw [hmode] at hmode'
      cases hmode'
    · rw [hpol] at hs
      rcases List.mem_append.mp hs with hmem | hmem
      · exfalso
        have hkeep := (List.mem_filter.mp hmem).2
        have : isStatusFor PolicyStatus.scheduled request.id s = true :=
          decide_eq_true ⟨hsst, hsrid⟩
        rw [this] at hkeep
        cases hkeep
      · simpa using hmem

/-- Witness for C2: starting from an empty ledger, an activation of a
concrete approved request leaves a ledger that still satisfies the
at-most-one invariant (checked at the request's own id). -/
theorem policy_per_request_uniqueness_witness :
    countStatusFor PolicyStatus.active "r1"
        ((activateImmediate { policies := [], available_points := 500 }
          { id := "r1", user_id := "u1", scale := 1/10, cost_usd := 100,
            status := MiniaturizationStatus.approved }
          InsuranceTier.basic
          { tier := InsuranceTier.basic, steps := 10, base_rate_per_step := 20,
            bucket_multiplier := 1, monthly_premium := 200,
            final_premium := 175, points_redeemed := 500,
            discount_value_usd := 25, points_available := 500 }
          "p1" "t0" "t1").2).policies ≤ 1 ∧
    countStatusFor PolicyStatus.scheduled "r1"
        ((activateImmediate { policies := [], available_points := 500 }
          { id := "r1", user_id := "u1", scale := 1/10, cost_usd := 100,
            status := MiniaturizationStatus.approved }
          InsuranceTier.basic
          { tier := InsuranceTier.basic, steps := 10, base_rate_per_step := 20,
            bucket_multiplier := 1, monthly_premium := 200,
            final_premium := 175, points_redeemed := 500,
            discount_value_usd := 25, points_available := 500 }
          "p1" "t0" "t1").2).policies ≤ 1 :=
  policy_per_request_uniqueness.2.2.1
    { policies := [], available_points := 500 }
    { id := "r1", user_id := "u1", scale := 1/10, cost_usd := 100,
      status := MiniaturizationStatus.approved }
    InsuranceTier.basic
    { tier := InsuranceTier.basic, steps := 10, base_rate_per_step := 20,
      bucket_multiplier := 1, monthly_premium := 200, final_premium := 175,
      points_redeemed := 500, discount_value_usd := 25,
      points_available := 500 }
    "p1" "t0" "t1" false _ _
    (fun _ => ⟨by simp [countStatusFor], by simp [countStatusFor]⟩)
    rfl "r1"

/-- C3: when the request already carries an active policy of another tier
(and that tier is not merely the one already scheduled), activation is
scheduled rather than immediate: the call succeeds with the scheduled
result, whose mode is `scheduled`, whose `effective_at` is the active
policy's `next_billing_at`, whose new row has `status = scheduled`, while
the existing active policy stays in the ledger as the very same `active`
record. -/
theorem activate_tier_change_is_scheduled
    (ledger : PolicyLedger) (request : MiniaturizationRequestRecord)
    (tier : InsuranceTier) (quote : InsurancePolicyQuote)
    (newPolicyId now nextBillingAt : String) (a : InsurancePolicyRecord)
    (helig : request.status = MiniaturizationStatus.approved ∨
      request.status = MiniaturizationStatus.completed)
    (hA : findActivePolicy ledger.policies request.id = some a)
    (htier : a.tier ≠ tier)
    (hS : ∀ s, findScheduledPolicy ledger.policies request.id = some s →
      s.tier ≠ tier) :
    activate ledger request tier quote newPolicyId now nextBillingAt false =
      Except.ok (activateScheduled ledger request tier quote a newPolicyId now) ∧
    (activateScheduled ledger request tier quote a newPolicyId now).1.activation_mode =
      ActivationMode.scheduled ∧
    (activateScheduled ledger request tier quote a newPolicyId now).1.no_op = false ∧
    (activateScheduled ledger request tier quote a newPolicyId now).1.effective_at =
      a.next_billing_at ∧
    (activateScheduled ledger request tier quote a newPolicyId now).1.policy.status =
      PolicyStatus.scheduled ∧
    a ∈ (activateScheduled ledger request tier quote a newPolicyId now).2.policies ∧
    a.status = PolicyStatus.active := by
  have hmem : a ∈ ledger.policies := List.mem_of_find?_eq_some hA
  have hpred : isStatusFor PolicyStatus.active request.id a = true :=
    List.find?_some hA
  obtain ⟨hast, harid⟩ := of_decide_eq_true hpred
  have hkept : a ∈ (activateScheduled ledger request tier quote a newPolicyId
      now).2.policies := by
    simp only [activateScheduled]
    refine List.mem_append_left _ (mem_discardScheduledFor hmem ?_)
    intro hcontra
    rw [hast] at hcontra
    cases hcontra.1
  refine ⟨?_, rfl, rfl, rfl, rfl, hkept, hast⟩
  unfold activate
  rw [if_pos helig, hA]
  cases hSs : findScheduledPolicy ledger.policies request.id with
  | some s =>
    dsimp only
    rw [if_neg htier, if_neg (hS s hSs)]
    simp
  | none =>
    dsimp only
    rw [if_neg htier]
    simp

/-- Witness for C3: a concrete ledger with an active basic policy on request
r1; activating plus on r1 is scheduled at the active policy's next billing
date ("2026-11-01"). -/
theorem activate_tier_change_is_scheduled_witness :
    (activateScheduled
      { policies := [{ id := "p1", user_id := "u1", request_id := "r1",
                       tier := InsuranceTier.basic,
                       status := PolicyStatus.active,
                       next_billing_at := "2026-11-01" }],
        available_points := 500 }
      { id := "r1", user_id := "u1", scale := 1/10, cost_usd := 100,
        status := MiniaturizationStatus.approved }
      InsuranceTier.plus
      { tier := InsuranceTier.plus, steps := 10, base_rate_per_step := 35,
        bucket_multiplier := 1, monthly_premium := 350, final_premium := 325,
        points_redeemed := 500, discount_value_usd := 25,
        points_available := 500 }
      { id := "p1", user_id := "u1", request_id := "r1",
        tier := InsuranceTier.basic, status := PolicyStatus.active,
        next_billing_at := "2026-11-01" }
      "p2" "t2").1.effective_at = "2026-11-01" :=
  (activate_tier_change_is_scheduled
    { policies := [{ id := "p1", user_id := "u1", request_id := "r1",
                     tier := InsuranceTier.basic,
                     status := PolicyStatus.active,
                     next_billing_at := "2026-11-01" }],
      available_points := 500 }
    { id := "r1", user_id := "u1", scale := 1/10, cost_usd := 100,
      status := MiniaturizationStatus.approved }
    InsuranceTier.plus
    { tier := InsuranceTier.plus, steps := 10, base_rate_per_step := 35,
      bucket_multiplier := 1, monthly_premium := 350, final_premium := 325,
      points_redeemed := 500, discount_value_usd := 25,
      points_available := 500 }
    "p2" "t2" "t3"
    { id := "p1", user_id := "u1", request_id := "r1",
      tier := InsuranceTier.basic, status := PolicyStatus.active,
      next_billing_at := "2026-11-01" }
    (Or.inl rfl) (by decide) (by decide)
    (fun s hs => by
      rw [show findScheduledPolicy
          [{ id := "p1", user_id := "u1", request_id := "r1",
             tier := InsuranceTier.basic, status := PolicyStatus.active,
             next_billing_at := "2026-11-01" }] "r1" = none from by decide] at hs
      cases hs)).2.2.2.1

/-- C4: requesting the tier that is already active, or already scheduled,
for the selected request is an idempotent no-op — the backend returns the
existing policy with an unchanged ledger (no new policy row, no points
spent), and the enrollment page disables the Activate button and shows the
"already active" / "already scheduled" informational messages. -/
theorem activate_same_tier_idempotent :
    (∀ (ledger : PolicyLedger) (request : MiniaturizationRequestRecord)
        (tier : InsuranceTier) (quote : InsurancePolicyQuote)
        (newPolicyId now nextBillingAt : String) (forceImmediate : Bool)
        (a : InsurancePolicyRecord),
        (request.status = MiniaturizationStatus.approved ∨
          request.status = MiniaturizationStatus.completed) →
        findActivePolicy ledger.policies request.id = some a →
        a.tier = tier →
        activate ledger request tier quote newPolicyId now nextBillingAt
          forceImmediate =
          Except.ok ({ policy := a,
                       activation_mode := ActivationMode.immediate,
                       effective_at := a.effective_at,
                       no_op := true, points_spent := 0 }, ledger)) ∧
    (∀ (ledger : PolicyLedger) (request : MiniaturizationRequestRecord)
        (tier : InsuranceTier) (quote : InsurancePolicyQuote)
        (newPolicyId now nextBillingAt : String) (forceImmediate : Bool)
        (s : InsurancePolicyRecord),
        (request.status = MiniaturizationStatus.approved ∨
          request.status = MiniaturizationStatus.completed) →
        (findActivePolicy ledger.policies request.id = none ∨
          ∃ a, findActivePolicy ledger.policies request.id = some a ∧
            a.tier ≠ tier) →
        findScheduledPolicy ledger.policies request.id = some s →
        s.tier = tier →
        activate ledger request tier quote newPolicyId now nextBillingAt
          forceImmediate =
          Except.ok ({ policy := s,
                       activation_mode := ActivationMode.scheduled,
                       effective_at := s.effective_at,
                       no_op := true, points_spent := 0 }, ledger)) ∧
    (∀ (fmtDate : String → String) (st : EnrollmentPreviewState),
        sameTierActive st = true →
        disableActivate st = true ∧
        (st.quoteEligible = true →
          infoMessage fmtDate st =
            some "This tier is already active for the selected request.")) ∧
    (∀ (fmtDate : String → String) (st : EnrollmentPreviewState),
        sameTierScheduled st = true →
        disableActivate st = true ∧
        (st.quoteEligible = true → sameTierActive st = false →
          infoMessage fmtDate st =
            some ("This tier is already scheduled to begin on " ++
              (match st.effectiveAt with
               | some e => fmtDate e
               | none => "your next billing date") ++
              ". No further action required."))) := by
  refine ⟨?_, ?_, ?_, ?_⟩
  · intro ledger request tier quote newPolicyId now nextBillingAt forceImmediate
      a helig hA htier
    unfold activate
    rw [if_pos helig, hA]
    cases hSs : findScheduledPolicy ledger.policies request.id with
    | some s =>
      dsimp only
      rw [if_pos htier]
    | none =>
      dsimp only
      rw [if_pos htier]
  · intro ledger request tier quote newPolicyId now nextBillingAt forceImmediate
      s helig hAcase hS hstier
    unfold activate
    rw [if_pos helig, hS]
    rcases hAcase with hA | ⟨a, hA, hatier⟩ <;> rw [hA] <;> dsimp only
    · rw [if_pos hstier]
    · rw [if_neg hatier, if_pos hstier]
  · intro fmtDate st h
    rcases hat : st.activePolicyTier with _ | t <;>
      rcases hq : st.quote with _ | q <;>
        rw [sameTierActive, hat, hq] at h <;> try cases h
    constructor
    · simp only [disableActivate]
      have hsa : sameTierActive st = true := by
        rw [sameTierActive, hat, hq]
        exact h
      rw [hsa]
      simp
    · intro helig
      have hsa : sameTierActive st = true := by
        rw [sameTierActive, hat, hq]
        exact h
      simp [infoMessage, hq, helig, hsa]
  · intro fmtDate st h
    rcases hst : st.scheduledPolicyTier with _ | t <;>
      rcases hq : st.quote with _ | q <;>
        rw [sameTierScheduled, hst, hq] at h <;> try cases h
    have hss : sameTierScheduled st = true := by
      rw [sameTierScheduled, hst, hq]
      exact h
    constructor
    · simp only [disableActivate]
      rw [hss]
      simp
    · intro helig hsa
      rcases he : st.effectiveAt with _ | e <;>
        simp [infoMessage, hq, helig, hsa, hss, he]

/-- Witness for C4: on a concrete ledger whose request r1 already has an
active basic policy, activating basic again is the identity no-op. -/
theorem activate_same_tier_idempotent_witness :
    activate
      { policies := [{ id := "p1", user_id := "u1", request_id := "r1",
                       tier := InsuranceTier.basic,
                       status := PolicyStatus.active,
                       effective_at := "2026-10-01",
                       next_billing_at := "2026-11-01" }],
        available_points := 500 }
      { id := "r1", user_id := "u1", scale := 1/10, cost_usd := 100,
        status := MiniaturizationStatus.approved }
      InsuranceTier.basic
      { tier := InsuranceTier.basic, steps := 10, base_rate_per_step := 20,
        bucket_multiplier := 1, monthly_premium := 200, final_premium := 175,
        points_redeemed := 500, discount_value_usd := 25,
        points_available := 500 }
      "p2" "t2" "t3" false =
      Except.ok
        ({ policy := { id := "p1", user_id := "u1", request_id := "r1",
                       tier := InsuranceTier.basic,
                       status := PolicyStatus.active,
                       effective_at := "2026-10-01",
                       next_billing_at := "2026-11-01" },
           activation_mode := ActivationMode.immediate,
           effective_at := "2026-10-01",
           no_op := true, points_spent := 0 },
         { policies := [{ id := "p1", user_id := "u1", request_id := "r1",
                          tier := InsuranceTier.basic,
                          status := PolicyStatus.active,
                          effective_at := "2026-10-01",
                          next_billing_at := "2026-11-01" }],
           available_points := 500 }) :=
  activate_same_tier_idempotent.1
    { policies := [{ id := "p1", user_id := "u1", request_id := "r1",
                     tier := InsuranceTier.basic,
                     status := PolicyStatus.active,
                     effective_at := "2026-10-01",
                     next_billing_at := "2026-11-01" }],
      available_points := 500 }
    { id := "r1", user_id := "u1", scale := 1/10, cost_usd := 100,
      status := MiniaturizationStatus.approved }
    InsuranceTier.basic
    { tier := InsuranceTier.basic, steps := 10, base_rate_per_step := 20,
      bucket_multiplier := 1, monthly_premium := 200, final_premium := 175,
      points_redeemed := 500, discount_value_usd := 25,
      points_available := 500 }
    "p2" "t2" "t3" false
    { id := "p1", user_id := "u1", request_id := "r1",
      tier := InsuranceTier.basic, status := PolicyStatus.active,
      effective_at := "2026-10-01", next_billing_at := "2026-11-01" }
    (Or.inl rfl) (by decide) rfl

/-- C5: insurance activation is gated on request status: the enrollment form
lists exactly the `approved` / `completed` requests, an ineligible request
fails activation with `RequestNotEligibleError`, and an ineligible preview
is surfaced as an informational message with the Activate action disabled
(no exception). -/
theorem insurance_eligibility_gating :
    (∀ (requests : List MiniaturizationRequestRecord)
        (request : MiniaturizationRequestRecord),
        request ∈ eligibleRequests requests ↔
          request ∈ requests ∧
            (request.status = MiniaturizationStatus.approved ∨
              request.status = MiniaturizationStatus.completed)) ∧
    (∀ (ledger : PolicyLedger) (request : MiniaturizationRequestRecord)
        (tier : InsuranceTier) (quote : InsurancePolicyQuote)
        (newPolicyId now nextBillingAt : String) (forceImmediate : Bool),
        ¬(request.status = MiniaturizationStatus.approved ∨
          request.status = MiniaturizationStatus.completed) →
        activate ledger request tier quote newPolicyId now nextBillingAt
          forceImmediate = Except.error ActivationError.requestNotEligible) ∧
    (∀ (fmtDate : String → String) (st : EnrollmentPreviewState)
        (q : InsurancePolicyQuote),
        st.quote = some q →
        st.quoteEligible = false →
        infoMessage fmtDate st =
          some ("Request status is " ++
            (match st.quoteStatus with
             | some s => replaceUnderscores s
             | none => "unavailable") ++
            ". Coverage activates once approval completes.") ∧
        disableActivate st = true) := by
  refine ⟨?_, ?_, ?_⟩
  · intro requests request
    simp [eligibleRequests, List.mem_filter]
  · intro ledger request tier quote newPolicyId now nextBillingAt
      forceImmediate h
    unfold activate
    rw [if_neg h]
  · intro fmtDate st q hq helig
    constructor
    · rcases hqs : st.quoteStatus with _ | sname <;>
        simp [infoMessage, hq, helig, hqs]
    · simp [disableActivate, helig]

/-- Witness for C5: a draft request cannot be activated (the concrete call
returns `RequestNotEligibleError`). -/
theorem insurance_eligibility_gating_witness :
    activate { policies := [], available_points := 0 }
      { id := "r9", user_id := "u1", scale := 1/10, cost_usd := 100,
        status := MiniaturizationStatus.draft }
      InsuranceTier.basic
      { tier := InsuranceTier.basic, steps := 10, base_rate_per_step := 20,
        bucket_multiplier := 1, monthly_premium := 200, final_premium := 200,
        points_redeemed := 0, discount_value_usd := 0, points_available := 0 }
      "p1" "t0" "t1" false =
      Except.error ActivationError.requestNotEligible :=
  insurance_eligibility_gating.2.1
    { policies := [], available_points := 0 }
    { id := "r9", user_id := "u1", scale := 1/10, cost_usd := 100,
      status := MiniaturizationStatus.draft }
    InsuranceTier.basic
    { tier := InsuranceTier.basic, steps := 10, base_rate_per_step := 20,
      bucket_multiplier := 1, monthly_premium := 200, final_premium := 200,
      points_redeemed := 0, discount_value_usd := 0, points_available := 0 }
    "p1" "t0" "t1" false (by decide)

/-- C6, as amended: the quote's discount arithmetic — `units_redeemable`
is the floor of available points over the unit size, `discount_value_usd`
is capped at the premium, `points_redeemed` is a whole multiple of
`points_per_discount_unit` never exceeding the available balance, it
corresponds exactly to `discount_value_usd` through the unit price in the
uncapped case and whenever the capped premium is a whole number of
discount units (when the capped premium is not such a multiple the
correspondence is impossible for a whole-unit `points_redeemed` — see the
counterexample below), and the spec's Scenario B evaluates to discount 20,
final premium 0.00 and 400 points redeemed. -/
theorem quote_points_discount_spec :
    (∀ (premium : ℚ) (pts ppu : ℕ) (dpu : ℚ),
      (quotePointsDiscount premium pts ppu dpu).units_redeemable = pts / ppu) ∧
    (∀ (premium : ℚ) (pts ppu : ℕ) (dpu : ℚ),
      (quotePointsDiscount premium pts ppu dpu).discount_value_usd =
        min premium ((pts / ppu : ℕ) * dpu)) ∧
    (∀ (premium : ℚ) (pts ppu : ℕ) (dpu : ℚ),
      ppu ∣ (quotePointsDiscount premium pts ppu dpu).points_redeemed) ∧
    (∀ (premium : ℚ) (pts ppu : ℕ) (dpu : ℚ), 0 < dpu → 0 ≤ premium →
      (quotePointsDiscount premium pts ppu dpu).points_redeemed ≤ pts) ∧
    (∀ (premium : ℚ) (pts ppu : ℕ) (dpu : ℚ), 0 < ppu → 0 < dpu →
      ((((pts / ppu : ℕ) : ℚ) * dpu ≤ premium) ∨
        ∃ k : ℕ, premium = (k : ℚ) * dpu) →
      (((quotePointsDiscount premium pts ppu dpu).points_redeemed / ppu : ℕ) : ℚ) *
          dpu =
        (quotePointsDiscount premium pts ppu dpu).discount_value_usd) ∧
    (quotePointsDiscount 20 500 100 5 =
      { units_redeemable := 5, discount_value_usd := 20,
        points_redeemed := 400, final_premium := 0 }) := by
  refine ⟨fun _ _ _ _ => rfl, fun _ _ _ _ => rfl, ?_, ?_, ?_, ?_⟩
  · intro premium pts ppu dpu
    exact dvd_mul_left ppu _
  · intro premium pts ppu dpu hdpu hprem
    simp only [quotePointsDiscount]
    by_cases hcap : ((pts / ppu : ℕ) : ℚ) * dpu ≤ premium
    · rw [if_pos hcap]
      exact Nat.div_mul_le_self pts ppu
    · rw [if_neg hcap]
      have hlt : premium / dpu < ((pts / ppu : ℕ) : ℚ) := by
        rw [div_lt_iff₀ hdpu]
        exact lt_of_not_le hcap
      have hfloor : ⌊premium / dpu⌋ < ((pts / ppu : ℕ) : ℤ) := by
        rw [Int.floor_lt]
        exact_mod_cast hlt
      have htn : (⌊premium / dpu⌋).toNat ≤ pts / ppu :=
        Int.toNat_le.mpr (le_of_lt hfloor)
      exact le_trans (Nat.mul_le_mul_right ppu htn) (Nat.div_mul_le_self pts ppu)
  · intro premium pts ppu dpu hppu hdpu hside
    simp only [quotePointsDiscount]
    by_cases hcap : ((pts / ppu : ℕ) : ℚ) * dpu ≤ premium
    · rw [if_pos hcap, Nat.mul_div_cancel _ hppu, min_eq_right hcap]
    · rw [if_neg hcap]
      rcases hside with hside | ⟨k, hk⟩
      · exact absurd hside hcap
      · have hdpu0 : dpu ≠ 0 := ne_of_gt hdpu
        have hfl : ⌊premium / dpu⌋ = (k : ℤ) := by
          rw [hk, mul_div_cancel_right₀ _ hdpu0]
          exact Int.floor_natCast k
        rw [hfl, Int.toNat_natCast, Nat.mul_div_cancel _ hppu,
          min_eq_left (le_of_lt (lt_of_not_le hcap))]
        exact hk.symm
  · simp only [quotePointsDiscount]
    norm_num
    rfl

/-- Witness for C6: Scenario B concretely — premium 20, 500 points, 100
points per unit, five dollars per unit: the 400 redeemed points correspond
exactly to the capped 20-dollar discount. -/
theorem quote_points_discount_spec_witness :
    (((quotePointsDiscount 20 500 100 5).points_redeemed / 100 : ℕ) : ℚ) * 5 =
      (quotePointsDiscount 20 500 100 5).discount_value_usd :=
  quote_points_discount_spec.2.2.2.2.1 20 500 100 5 (by decide)
    (by norm_num) (Or.inr ⟨4, by norm_num⟩)

/-- Counterexample for C6 as originally stated: at monthly premium 22,
500 available points, 100 points per unit and 5 dollars per unit the cap
applies (5 units would be worth 25), the capped `discount_value_usd` is the
full premium 22, but the recomputed `points_redeemed` is 400 — worth
4 × 5 = 20 dollars — so after capping `points_redeemed` does not
correspond exactly to `discount_value_usd` via `points_per_discount_unit`
whenever the premium is not a whole number of discount units. -/
theorem quote_points_discount_cap_not_exact :
    (quotePointsDiscount 22 500 100 5).discount_value_usd = 22 ∧
    (quotePointsDiscount 22 500 100 5).points_redeemed = 400 ∧
    (((quotePointsDiscount 22 500 100 5).points_redeemed / 100 : ℕ) : ℚ) * 5 ≠
      (quotePointsDiscount 22 500 100 5).discount_value_usd := by
  refine ⟨?_, ?_, ?_⟩
  · simp only [quotePointsDiscount]
    norm_num
  · simp only [quotePointsDiscount]
    norm_num
    rfl
  · simp only [quotePointsDiscount]
    norm_num
    rw [show Int.toNat 4 = 4 from rfl]
    norm_num

/-- C7: every hydration from a fetched overview — initial load or any later
sync — sets the component's step state to exactly
`resolveJourneyStep(overview)`; in particular the step after hydration does
not depend on the previously held step or any other prior component state. -/
theorem hydrateFromOverview_step_is_resolver :
    (∀ (mode : JourneyMode) (onCompletePresent : Bool)
        (s : JourneyComponentState) (data : UserOverview)
        (context : HydrateContext),
        (hydrateFromOverview mode onCompletePresent s data context).step =
          resolveJourneyStep data) ∧
    (∀ (mode : JourneyMode) (onCompletePresent : Bool)
        (s₁ s₂ : JourneyComponentState) (data : UserOverview)
        (context₁ context₂ : HydrateContext),
        (hydrateFromOverview mode onCompletePresent s₁ data context₁).step =
          (hydrateFromOverview mode onCompletePresent s₂ data context₂).step) ∧
    (∀ (mode : JourneyMode) (onCompletePresent : Bool)
        (s : JourneyComponentState) (data : UserOverview)
        (context : HydrateContext),
        (hydrateFromOverview mode onCompletePresent s data context).overview =
          some data) := by
  refine ⟨fun _ _ _ _ _ => rfl, fun _ _ _ _ _ _ _ => rfl, fun _ _ _ _ _ => rfl⟩

/-- C10: every edit of `points_per_discount_unit` is coerced to
`max 1 (round value)`, so the stored value is an integer that is at least
one — never zero, never negative, never fractional — and therefore a legal
positive divisor for the quote engine's floor division; the form field
additionally advertises a minimum of 100. -/
theorem changePointsPerUnit_positive_integer :
    (∀ value : ℚ, 1 ≤ changePointsPerUnit value) ∧
    (∀ value : ℚ, changePointsPerUnit value ≠ 0) ∧
    (∀ value : ℚ, ¬changePointsPerUnit value < 0) ∧
    (∀ value : ℚ, ((changePointsPerUnit value : ℚ)).den = 1) ∧
    (∀ value : ℚ, 0 < (changePointsPerUnit value).toNat) ∧
    pointsPerUnitFieldMin = 100 := by
  refine ⟨fun value => le_max_left 1 (jsRound value), ?_, ?_, ?_, ?_, rfl⟩
  · intro value h
    have := le_max_left 1 (jsRound value)
    rw [changePointsPerUnit] at h
    omega
  · intro value h
    have := le_max_left 1 (jsRound value)
    rw [changePointsPerUnit] at h
    omega
  · intro value
    exact Rat.den_intCast _
  · intro value
    have := le_max_left 1 (jsRound value)
    rw [changePointsPerUnit]
    omega

end Etinuxe
